import Mathlib

/-!
# Verification of the eager gradient accumulation node

Shallow embedding of `paddle/fluid/eager/accumulation/accumulation_node.h`
(class `egr::GradNodeAccumulation`) together with the compute contract of
its `operator()`, and proofs of the specified properties.

The header declares the class, its state and its inline members
(constructor, `Copy`, `SetFakeEmpty`, `ClearTensorWrappers`, `name`,
`ReduceHooksRegistered`).  The bodies of `operator()`,
`RegisterReduceHook` and `ApplyReduceHooks` live in the accompanying
translation unit, which is not part of this tree; those three are
modelled from the specification (§4.2 and §4.3) and are marked as such.
-/

set_option autoImplicit false

namespace egr

/-- A gradient tensor: a shape, an element-type tag and flat element data.
Element values are modelled as integers; only shape/dtype compatibility and
elementwise addition matter for the properties proved here. -/
structure Tensor where
  shape : List Nat
  dtype : Nat
  data : List Int
  deriving Repr, DecidableEq

/-- The fatal error taxonomy of the compute contract (spec §7):
incompatible shapes, incompatible element types, or a slot count other
than one. -/
inductive AccumError where
  | ShapeMismatch
  | TypeMismatch
  | InvalidArity
  deriving Repr, DecidableEq

/-- Elementwise addition of two gradient tensors.  Operands must agree on
shape and element type; otherwise the combination fails fatally with the
corresponding mismatch error and no coerced partial result is produced. -/
def Tensor.add (a b : Tensor) : Except AccumError Tensor :=
  if a.shape ≠ b.shape then .error .ShapeMismatch
  else if a.dtype ≠ b.dtype then .error .TypeMismatch
  else .ok ⟨a.shape, a.dtype, List.zipWith (fun x y => x + y) a.data b.data⟩

/-- Left fold of `Tensor.add` over the remaining contributions, starting
from an already-accumulated tensor.  The first incompatibility aborts the
whole summation. -/
def sumGradList : Tensor → List Tensor → Except AccumError Tensor
  | acc, [] => .ok acc
  | acc, t :: ts =>
    match acc.add t with
    | .error e => .error e
    | .ok a => sumGradList a ts

/-- Summation of all gradient values present in the single input slot
(spec §4.2 step 2): zero contributions yield the empty result `none`
rather than an error, one contribution is returned as-is, and two or more
are combined by elementwise addition. -/
def sumGrads : List Tensor → Except AccumError (Option Tensor)
  | [] => .ok none
  | t :: ts => (sumGradList t ts).map some

/-- The autograd metadata handle passed at construction; Paddle's
`AutogradMeta::WeakGrad()` hands out a weak reference to the leaf tensor's
gradient storage, modelled as an identifier of that storage. -/
structure AutogradMeta where
  weakGrad : Nat
  deriving Repr, DecidableEq

/-- A registered reduce hook (`std::shared_ptr<VoidHook>` in the header),
modelled by an identifier; an invocation is recorded as the pair of the
hook and the gradient value it observes. -/
abbrev VoidHook := Nat

/-- State of `egr::GradNodeAccumulation`: the fixed (1, 1) slot arity
inherited from `GradNodeBase(1, 1)`, the `is_fake_empty_` flag, the weak
(non-owning, possibly unset) reference `weak_grad_` to the leaf gradient
storage, the ordered reduce-hook registry `reduce_hooks_`, the optional
retain-grad transform `retain_grad_hook_`, and the debug forward trace
captured when the call-stack verbosity flag equals 3. -/
structure GradNodeAccumulation where
  bwd_in_slots : Nat
  bwd_out_slots : Nat
  is_fake_empty_ : Bool
  weak_grad_ : Option Nat
  reduce_hooks_ : List VoidHook
  retain_grad_hook_ : Option (Tensor → Tensor)
  forward_trace : Option String

/-- The constructor `GradNodeAccumulation(AutogradMeta* meta)`: calls
`GradNodeBase(1, 1)` fixing the arity, captures `meta->WeakGrad()` when
`meta` is non-null, captures the Python stack as a forward trace when the
global `FLAGS_call_stack_level` equals 3, and leaves the remaining fields
at their in-class defaults (`is_fake_empty_ = false`, empty hook list, no
retain-grad transform). -/
def GradNodeAccumulation.construct (meta : Option AutogradMeta)
    (call_stack_level : Int) (python_stack : String) : GradNodeAccumulation :=
  { bwd_in_slots := 1
    bwd_out_slots := 1
    is_fake_empty_ := false
    weak_grad_ := meta.map AutogradMeta.weakGrad
    reduce_hooks_ := []
    retain_grad_hook_ := none
    forward_trace := if call_stack_level = 3 then some python_stack else none }

/-- `Copy()`: builds `new GradNodeAccumulation(nullptr)`, i.e. runs the
unbound construction path under the current global flag state. -/
def GradNodeAccumulation.Copy (_ : GradNodeAccumulation)
    (call_stack_level : Int) (python_stack : String) : GradNodeAccumulation :=
  GradNodeAccumulation.construct none call_stack_level python_stack

/-- `SetFakeEmpty(bool)`: writes the `is_fake_empty_` flag. -/
def GradNodeAccumulation.SetFakeEmpty (n : GradNodeAccumulation)
    (b : Bool) : GradNodeAccumulation :=
  { n with is_fake_empty_ := b }

/-- `ClearTensorWrappers()`: `"Do nothing here now"` — a no-op. -/
def GradNodeAccumulation.ClearTensorWrappers
    (n : GradNodeAccumulation) : GradNodeAccumulation :=
  n

/-- `name()`: returns the literal `"GradNodeAccumulation"`. -/
def GradNodeAccumulation.name (_ : GradNodeAccumulation) : String :=
  "GradNodeAccumulation"

/-- `ReduceHooksRegistered()`: `reduce_hooks_.size() != 0`. -/
def GradNodeAccumulation.ReduceHooksRegistered
    (n : GradNodeAccumulation) : Bool :=
  n.reduce_hooks_.length != 0

/-- Modelled from the spec: the body of `RegisterReduceHook` is not in
this tree (only its declaration is).  Spec §4.3: it appends the hook to
the ordered, append-only registry, never rejecting or reordering. -/
def GradNodeAccumulation.RegisterReduceHook (n : GradNodeAccumulation)
    (hook : VoidHook) : GradNodeAccumulation :=
  { n with reduce_hooks_ := n.reduce_hooks_ ++ [hook] }

/-- Modelled from the spec: the body of `ApplyReduceHooks` is not in this
tree (only its declaration is).  Spec §4.2 step 4 / §4.3: every registered
hook is invoked in registration order against the final accumulated value;
the returned list records the invocations in the order they happen, each
paired with the value the hook observes. -/
def GradNodeAccumulation.ApplyReduceHooks (n : GradNodeAccumulation)
    (finalVal : Option Tensor) : List (VoidHook × Option Tensor) :=
  n.reduce_hooks_.map (fun h => (h, finalVal))

/-- Spec §4.2 step 3: when a retain-grad transform is registered it is
applied to the accumulated value exactly once; an empty accumulated value
has nothing to transform. -/
def retainApply (rh : Option (Tensor → Tensor))
    (acc : Option Tensor) : Option Tensor :=
  match rh with
  | none => acc
  | some f => acc.map f

/-- The result of one compute invocation: the per-slot output values
(`none` is the empty/placeholder tensor) and the trace of reduce-hook
invocations performed, in order. -/
structure ComputeResult where
  outputs : List (List (Option Tensor))
  hook_trace : List (VoidHook × Option Tensor)
  deriving Repr, DecidableEq

/-- Modelled from the spec: the body of `operator()` is not in this tree
(only its declaration is).  Spec §4.2: the input is addressed by
(slot, edge-index) with exactly one slot (any other slot count is the
fatal `InvalidArity` of §7); if `is_fake_empty_` is set, steps 2–4 are
skipped and the single output slot holds an empty result; otherwise all
gradients in the slot are summed elementwise (zero values → empty result,
incompatible values → fatal mismatch error), the optional retain-grad
transform is applied once, every reduce hook is invoked in registration
order against the final value, and the final value is returned as the sole
output slot's value.  `create_graph` governs traceability and
`is_new_grad` continuation bookkeeping, neither of which changes the
produced value. -/
def GradNodeAccumulation.call (n : GradNodeAccumulation)
    (grads : List (List Tensor)) (create_graph is_new_grad : Bool) :
    Except AccumError ComputeResult :=
  match grads with
  | [ts] =>
    if n.is_fake_empty_ then
      .ok ⟨[[none]], []⟩
    else
      match sumGrads ts with
      | .error e => .error e
      | .ok acc =>
        let finalVal := retainApply n.retain_grad_hook_ acc
        .ok ⟨[[finalVal]], n.ApplyReduceHooks finalVal⟩
  | _ => .error .InvalidArity

/-- C8 (counterexample): `name()` on a freshly constructed node does not
return the string identifier `"AccumulationNode"` claimed by the spec —
the header returns `"GradNodeAccumulation"`. -/
theorem name_ne_AccumulationNode :
    (GradNodeAccumulation.construct none 0 "").name ≠ "AccumulationNode" := by
  decide

/-- C8 (amended): for every accumulation node, `name()` returns the string
identifier `"GradNodeAccumulation"`. -/
theorem name_eq_GradNodeAccumulation (n : GradNodeAccumulation) :
    n.name = "GradNodeAccumulation" :=
  rfl

/-- C9: every node, bound or unbound, is constructed with arity
(1 input slot, 1 output slot), and no operation on a node — hook
registration, `SetFakeEmpty`, `ClearTensorWrappers`, or producing a clone
via `Copy` — ever yields a node with a different arity.  The compute
contract returns only gradient values, never a modified node, so it cannot
change the arity either. -/
theorem arity_fixed :
    (∀ (meta : Option AutogradMeta) (lvl : Int) (stk : String),
      (GradNodeAccumulation.construct meta lvl stk).bwd_in_slots = 1 ∧
      (GradNodeAccumulation.construct meta lvl stk).bwd_out_slots = 1) ∧
    (∀ (n : GradNodeAccumulation) (h : VoidHook),
      (n.RegisterReduceHook h).bwd_in_slots = n.bwd_in_slots ∧
      (n.RegisterReduceHook h).bwd_out_slots = n.bwd_out_slots) ∧
    (∀ (n : GradNodeAccumulation) (b : Bool),
      (n.SetFakeEmpty b).bwd_in_slots = n.bwd_in_slots ∧
      (n.SetFakeEmpty b).bwd_out_slots = n.bwd_out_slots) ∧
    (∀ n : GradNodeAccumulation,
      n.ClearTensorWrappers.bwd_in_slots = n.bwd_in_slots ∧
      n.ClearTensorWrappers.bwd_out_slots = n.bwd_out_slots) ∧
    (∀ (n : GradNodeAccumulation) (lvl : Int) (stk : String),
      (n.Copy lvl stk).bwd_in_slots = 1 ∧
      (n.Copy lvl stk).bwd_out_slots = 1) :=
  ⟨fun _ _ _ => ⟨rfl, rfl⟩, fun _ _ => ⟨rfl, rfl⟩, fun _ _ => ⟨rfl, rfl⟩,
    fun _ => ⟨rfl, rfl⟩, fun _ _ _ => ⟨rfl, rfl⟩⟩

/-- C10: every freshly constructed node — bound, unbound, or a clone
produced by `Copy()` — starts with `is_fake_empty_ = false`, an empty
reduce-hook list, no retain-grad transform, and `ReduceHooksRegistered()`
returning `false`; moreover `ReduceHooksRegistered()` returns `true`
exactly when the hook list is non-empty, i.e. when at least one hook has
been registered since construction. -/
theorem fresh_node_defaults :
    (∀ (meta : Option AutogradMeta) (lvl : Int) (stk : String),
      (GradNodeAccumulation.construct meta lvl stk).is_fake_empty_ = false ∧
      (GradNodeAccumulation.construct meta lvl stk).reduce_hooks_ = [] ∧
      (GradNodeAccumulation.construct meta lvl stk).ReduceHooksRegistered = false ∧
      (GradNodeAccumulation.construct meta lvl stk).retain_grad_hook_ = none) ∧
    (∀ (m : GradNodeAccumulation) (lvl : Int) (stk : String),
      (m.Copy lvl stk).is_fake_empty_ = false ∧
      (m.Copy lvl stk).reduce_hooks_ = [] ∧
      (m.Copy lvl stk).ReduceHooksRegistered = false ∧
      (m.Copy lvl stk).retain_grad_hook_ = none) ∧
    (∀ n : GradNodeAccumulation,
      n.ReduceHooksRegistered = true ↔ n.reduce_hooks_ ≠ []) := by
  refine ⟨fun _ _ _ => ⟨rfl, rfl, rfl, rfl⟩, fun _ _ _ => ⟨rfl, rfl, rfl, rfl⟩,
    fun n => ?_⟩
  simp [GradNodeAccumulation.ReduceHooksRegistered, List.length_eq_zero]

/-- C5: a clone produced by `Copy()` has its leaf gradient reference unset
even when the original holds one, starts with `is_fake_empty_` at its
default `false` and an empty hook list, and its hook list is independent
of the original's: registering a hook on the clone yields exactly that one
hook regardless of the original's registry, and registering a hook on the
original before cloning leaves the clone unchanged.  (Nodes are immutable
values in this embedding, so registration on one value can never alias
into the other.) -/
theorem Copy_detaches_and_is_independent (orig : GradNodeAccumulation)
    (lvl : Int) (stk : String) (h h' : VoidHook) :
    (orig.Copy lvl stk).weak_grad_ = none ∧
    (orig.Copy lvl stk).is_fake_empty_ = false ∧
    (orig.Copy lvl stk).reduce_hooks_ = [] ∧
    ((orig.Copy lvl stk).RegisterReduceHook h).reduce_hooks_ = [h] ∧
    (orig.RegisterReduceHook h').Copy lvl stk = orig.Copy lvl stk :=
  ⟨rfl, rfl, rfl, rfl, rfl⟩

/-- C7: the compute contract never consults the weak leaf gradient
reference — a node whose reference is unset or expired produces exactly
the same outcome, on exactly the same inputs, as one holding a live
reference; in particular the invocation never fails on account of the
reference being unresolvable. -/
theorem call_ignores_weak_grad (n : GradNodeAccumulation) (w : Option Nat)
    (grads : List (List Tensor)) (cg ng : Bool) :
    ({ n with weak_grad_ := w } : GradNodeAccumulation).call grads cg ng
      = n.call grads cg ng := by
  cases n
  rfl

/-- A successful elementwise addition requires the operands to agree on
shape and element type and preserves them in the result. -/
theorem Tensor.add_ok_conds {a b c : Tensor} (h : a.add b = .ok c) :
    b.shape = a.shape ∧ b.dtype = a.dtype ∧ c.shape = a.shape ∧ c.dtype = a.dtype := by
  unfold Tensor.add at h
  by_cases hs : a.shape ≠ b.shape
  · rw [if_pos hs] at h
    cases h
  · rw [if_neg hs] at h
    by_cases hd : a.dtype ≠ b.dtype
    · rw [if_pos hd] at h
      cases h
    · rw [if_neg hd] at h
      push_neg at hs hd
      cases h
      exact ⟨hs.symm, hd.symm, rfl, rfl⟩

/-- A failing elementwise addition fails with a shape or element-type
mismatch, never with any other error. -/
theorem Tensor.add_error_kind {a b : Tensor} {e : AccumError}
    (h : a.add b = .error e) :
    e = .ShapeMismatch ∨ e = .TypeMismatch := by
  unfold Tensor.add at h
  by_cases hs : a.shape ≠ b.shape
  · rw [if_pos hs] at h
    cases h
    exact Or.inl rfl
  · rw [if_neg hs] at h
    by_cases hd : a.dtype ≠ b.dtype
    · rw [if_pos hd] at h
      cases h
      exact Or.inr rfl
    · rw [if_neg hd] at h
      cases h

/-- If folding the remaining contributions onto an accumulated tensor
succeeds, every one of them agreed with the accumulator on shape and
element type. -/
theorem sumGradList_ok_compat {ts : List Tensor} :
    ∀ {acc r : Tensor}, sumGradList acc ts = .ok r →
      ∀ t ∈ ts, t.shape = acc.shape ∧ t.dtype = acc.dtype := by
  induction ts with
  | nil =>
    intro acc r _ t ht
    cases ht
  | cons u us ih =>
    intro acc r h t ht
    unfold sumGradList at h
    cases hadd : acc.add u with
    | error e =>
      rw [hadd] at h
      cases h
    | ok a =>
      rw [hadd] at h
      obtain ⟨hus, hud, has, had⟩ := Tensor.add_ok_conds hadd
      rcases List.mem_cons.mp ht with rfl | hmem
      · exact ⟨hus, hud⟩
      · obtain ⟨h1, h2⟩ := ih h t hmem
        exact ⟨h1.trans has, h2.trans had⟩

/-- A failing fold of contributions fails with a shape or element-type
mismatch, never with any other error. -/
theorem sumGradList_error_kind {ts : List Tensor} :
    ∀ {acc : Tensor} {e : AccumError}, sumGradList acc ts = .error e →
      e = .ShapeMismatch ∨ e = .TypeMismatch := by
  induction ts with
  | nil =>
    intro acc e h
    cases h
  | cons u us ih =>
    intro acc e h
    unfold sumGradList at h
    cases hadd : acc.add u with
    | error e2 =>
      rw [hadd] at h
      cases h
      exact Tensor.add_error_kind hadd
    | ok a =>
      rw [hadd] at h
      exact ih h

/-- C1: with `is_fake_empty_` unset and no retain-grad transform, a
compute invocation on a single input slot of compatible gradients returns
their elementwise sum as the sole output slot's value; in particular zero
contributions produce the empty result (not an error) and one
contribution is returned as that very value. -/
theorem call_accumulates_sum (n : GradNodeAccumulation)
    (hfe : n.is_fake_empty_ = false) (hrt : n.retain_grad_hook_ = none) :
    (∀ (ts : List Tensor) (acc : Option Tensor) (cg ng : Bool),
      sumGrads ts = .ok acc →
      n.call [ts] cg ng = .ok ⟨[[acc]], n.ApplyReduceHooks acc⟩) ∧
    (∀ cg ng : Bool,
      n.call [[]] cg ng = .ok ⟨[[none]], n.ApplyReduceHooks none⟩) ∧
    (∀ (t : Tensor) (cg ng : Bool),
      n.call [[t]] cg ng = .ok ⟨[[some t]], n.ApplyReduceHooks (some t)⟩) := by
  have base : ∀ (ts : List Tensor) (acc : Option Tensor) (cg ng : Bool),
      sumGrads ts = .ok acc →
      n.call [ts] cg ng = .ok ⟨[[acc]], n.ApplyReduceHooks acc⟩ := by
    intro ts acc cg ng hsum
    simp [GradNodeAccumulation.call, hfe, hsum, retainApply, hrt]
  exact ⟨base, fun cg ng => base [] none cg ng rfl,
    fun t cg ng => base [t] (some t) cg ng rfl⟩

/-- C1 witness: scenario A of the spec — two 2×2 gradients of all-ones
and all-twos accumulate to all-threes on a freshly constructed node. -/
theorem call_accumulates_sum_witness :
    (GradNodeAccumulation.construct none 0 "").call
        [[⟨[2, 2], 0, [1, 1, 1, 1]⟩, ⟨[2, 2], 0, [2, 2, 2, 2]⟩]] false false
      = .ok ⟨[[some ⟨[2, 2], 0, [3, 3, 3, 3]⟩]], []⟩ :=
  (call_accumulates_sum (GradNodeAccumulation.construct none 0 "") rfl rfl).1
    [⟨[2, 2], 0, [1, 1, 1, 1]⟩, ⟨[2, 2], 0, [2, 2, 2, 2]⟩]
    (some ⟨[2, 2], 0, [3, 3, 3, 3]⟩) false false rfl

/-- C2: with `is_fake_empty_` set, a compute invocation returns the empty
placeholder result for the single output slot no matter what gradients the
input slot holds — no summation is performed, no hooks are run, and no
shape or type error is raised even for mutually incompatible inputs. -/
theorem call_fake_empty (n : GradNodeAccumulation)
    (hfe : n.is_fake_empty_ = true) (ts : List Tensor) (cg ng : Bool) :
    n.call [ts] cg ng = .ok ⟨[[none]], []⟩ := by
  simp [GradNodeAccumulation.call, hfe]

/-- C2 witness: a fake-empty node fed two gradients of mismatched shapes
still succeeds with the empty result. -/
theorem call_fake_empty_witness :
    ((GradNodeAccumulation.construct none 0 "").SetFakeEmpty true).call
        [[⟨[2], 0, [1, 1]⟩, ⟨[3], 0, [1, 1, 1]⟩]] false false
      = .ok ⟨[[none]], []⟩ :=
  call_fake_empty ((GradNodeAccumulation.construct none 0 "").SetFakeEmpty true)
    rfl [⟨[2], 0, [1, 1]⟩, ⟨[3], 0, [1, 1, 1]⟩] false false

/-- C3 (counterexample): a fake-empty invocation skips hook invocation
(spec §4.2 step 1 skips steps 2–4), so an invocation on a node with one
registered hook can produce an empty hook trace — the hook is invoked
zero times, not exactly once. -/
theorem call_fake_empty_skips_hooks :
    (((GradNodeAccumulation.construct none 0 "").RegisterReduceHook 1).SetFakeEmpty
        true).reduce_hooks_ = [1] ∧
    (((GradNodeAccumulation.construct none 0 "").RegisterReduceHook 1).SetFakeEmpty
        true).call [[⟨[1], 0, [5]⟩]] false false = .ok ⟨[[none]], []⟩ :=
  ⟨rfl, rfl⟩

/-- C3 (amended): in every compute invocation with `is_fake_empty_` unset
whose accumulation succeeds, each registered hook is invoked exactly once,
in exactly registration order, and each observes the final value produced
after accumulation and the retain-grad transform — so no hook runs before
accumulation has completed. -/
theorem call_hooks_in_order (n : GradNodeAccumulation)
    (hfe : n.is_fake_empty_ = false)
    (ts : List Tensor) (acc : Option Tensor) (cg ng : Bool)
    (hsum : sumGrads ts = .ok acc) :
    n.call [ts] cg ng =
      .ok ⟨[[retainApply n.retain_grad_hook_ acc]],
        n.reduce_hooks_.map (fun h => (h, retainApply n.retain_grad_hook_ acc))⟩ := by
  simp [GradNodeAccumulation.call, hfe, hsum, GradNodeAccumulation.ApplyReduceHooks]

/-- C3 witness: hooks 1, 2, 3 registered in that order fire exactly once
each, in that order, all observing the final accumulated value. -/
theorem call_hooks_in_order_witness :
    ((((GradNodeAccumulation.construct none 0 "").RegisterReduceHook
        1).RegisterReduceHook 2).RegisterReduceHook 3).call
        [[⟨[1], 0, [7]⟩]] false false
      = .ok ⟨[[some ⟨[1], 0, [7]⟩]],
          [(1, some ⟨[1], 0, [7]⟩), (2, some ⟨[1], 0, [7]⟩),
            (3, some ⟨[1], 0, [7]⟩)]⟩ :=
  call_hooks_in_order
    ((((GradNodeAccumulation.construct none 0 "").RegisterReduceHook
        1).RegisterReduceHook 2).RegisterReduceHook 3)
    rfl [⟨[1], 0, [7]⟩] (some ⟨[1], 0, [7]⟩) false false rfl

/-- C4: when a retain-grad transform is registered and accumulation
succeeds, the transform is applied to the accumulated value exactly once,
its result is the sole output slot's value, and every reduce hook observes
that transformed value rather than the raw accumulated sum. -/
theorem call_retain_grad_transforms (n : GradNodeAccumulation)
    (f : Tensor → Tensor) (hrt : n.retain_grad_hook_ = some f)
    (hfe : n.is_fake_empty_ = false)
    (ts : List Tensor) (acc : Option Tensor) (cg ng : Bool)
    (hsum : sumGrads ts = .ok acc) :
    n.call [ts] cg ng =
      .ok ⟨[[acc.map f]], n.reduce_hooks_.map (fun h => (h, acc.map f))⟩ := by
  simp [GradNodeAccumulation.call, hfe, hsum, retainApply, hrt,
    GradNodeAccumulation.ApplyReduceHooks]

/-- C4 witness: a doubling retain-grad transform on a node with one hook —
the sum 4, 6 becomes 8, 12, and the hook observes 8, 12, not 4, 6. -/
theorem call_retain_grad_transforms_witness :
    ({ (GradNodeAccumulation.construct none 0 "").RegisterReduceHook 1 with
        retain_grad_hook_ :=
          some (fun t => ⟨t.shape, t.dtype, t.data.map (fun x => 2 * x)⟩) }
      : GradNodeAccumulation).call
        [[⟨[2], 0, [1, 2]⟩, ⟨[2], 0, [3, 4]⟩]] false false
      = .ok ⟨[[some ⟨[2], 0, [8, 12]⟩]], [(1, some ⟨[2], 0, [8, 12]⟩)]⟩ :=
  call_retain_grad_transforms
    { (GradNodeAccumulation.construct none 0 "").RegisterReduceHook 1 with
        retain_grad_hook_ :=
          some (fun t => ⟨t.shape, t.dtype, t.data.map (fun x => 2 * x)⟩) }
    (fun t => ⟨t.shape, t.dtype, t.data.map (fun x => 2 * x)⟩) rfl rfl
    [⟨[2], 0, [1, 2]⟩, ⟨[2], 0, [3, 4]⟩] (some ⟨[2], 0, [4, 6]⟩) false false rfl

/-- C6: with `is_fake_empty_` unset, a compute invocation whose input slot
holds two gradients of differing shape or differing element type fails
with the fatal `ShapeMismatch` or `TypeMismatch` error — surfaced
synchronously as the invocation's result, with no output value produced
and no coercion of the operands. -/
theorem call_incompatible_fails (n : GradNodeAccumulation)
    (hfe : n.is_fake_empty_ = false)
    (ts : List Tensor) (a b : Tensor) (cg ng : Bool)
    (ha : a ∈ ts) (hb : b ∈ ts)
    (hab : a.shape ≠ b.shape ∨ a.dtype ≠ b.dtype) :
    n.call [ts] cg ng = .error .ShapeMismatch ∨
    n.call [ts] cg ng = .error .TypeMismatch := by
  cases hsum : sumGrads ts with
  | error e =>
    have hcall : n.call [ts] cg ng = .error e := by
      simp [GradNodeAccumulation.call, hfe, hsum]
    have hkind : e = AccumError.ShapeMismatch ∨ e = AccumError.TypeMismatch := by
      cases ts with
      | nil => cases hsum
      | cons t0 rest =>
        simp only [sumGrads] at hsum
        cases hr : sumGradList t0 rest with
        | error e2 =>
          rw [hr] at hsum
          simp only [Except.map] at hsum
          cases hsum
          exact sumGradList_error_kind hr
        | ok r =>
          rw [hr] at hsum
          simp only [Except.map] at hsum
          cases hsum
    rcases hkind with h | h
    · exact Or.inl (h ▸ hcall)
    · exact Or.inr (h ▸ hcall)
  | ok acc =>
    exfalso
    cases ts with
    | nil => cases ha
    | cons t0 rest =>
      simp only [sumGrads] at hsum
      cases hr : sumGradList t0 rest with
      | error e2 =>
        rw [hr] at hsum
        simp only [Except.map] at hsum
        cases hsum
      | ok r =>
        have hcompat := sumGradList_ok_compat hr
        have hA : a.shape = t0.shape ∧ a.dtype = t0.dtype := by
          rcases List.mem_cons.mp ha with rfl | hmem
          · exact ⟨rfl, rfl⟩
          · exact hcompat a hmem
        have hB : b.shape = t0.shape ∧ b.dtype = t0.dtype := by
          rcases List.mem_cons.mp hb with rfl | hmem
          · exact ⟨rfl, rfl⟩
          · exact hcompat b hmem
        rcases hab with h | h
        · exact h (hA.1.trans hB.1.symm)
        · exact h (hA.2.trans hB.2.symm)

/-- C6 witness: a shape-[2] and a shape-[3] gradient in the single input
slot make the invocation fail with one of the two mismatch errors. -/
theorem call_incompatible_fails_witness :
    (GradNodeAccumulation.construct none 0 "").call
        [[⟨[2], 0, [1, 1]⟩, ⟨[3], 0, [1, 1, 1]⟩]] false false
        = .error .ShapeMismatch ∨
    (GradNodeAccumulation.construct none 0 "").call
        [[⟨[2], 0, [1, 1]⟩, ⟨[3], 0, [1, 1, 1]⟩]] false false
        = .error .TypeMismatch :=
  call_incompatible_fails (GradNodeAccumulation.construct none 0 "") rfl
    [⟨[2], 0, [1, 1]⟩, ⟨[3], 0, [1, 1, 1]⟩] ⟨[2], 0, [1, 1]⟩ ⟨[3], 0, [1, 1, 1]⟩
    false false (by decide) (by decide) (Or.inl (by decide))

end egr
